import Mathlib

/-!
Shallow embedding of the authentication boilerplate
(TypeScript/Express/MongoDB) token- and verification-code lifecycle core.

Conventions of the embedding:
* Instants are `Nat` milliseconds since the epoch (`Date.now()`).
* Mongo collections are `List`s of records in insertion order;
  `findOne` is `List.find?`, `create` appends, `deleteMany` filters.
  Mongo `_id` is the unique primary key, so `deleteOne` keyed on `_id`
  removes exactly the record with that id (modelled as a filter on the id);
  `deleteOne` keyed on a non-unique field removes the first match
  (modelled by `deleteOneBy`).
* JWTs are modelled as structured values carrying the payload, the
  embedded expiry instant, and the key they were signed with;
  `jwtVerify` succeeds exactly when the key matches and the token is
  not yet past its embedded expiry, which mirrors signature + `exp`
  checking in `jsonwebtoken`.
* bcrypt internals are out of scope of the specification (a one-way,
  verify-only primitive), modelled as an injective tagging function.
* Randomness (`crypto.randomBytes`) enters as an explicit byte-list
  argument; fresh Mongo ids enter as explicit `Nat` arguments.
-/

namespace AuthCore

/-- Enumeration `VerificationType` from `src/models/verification.model.ts`:
EMAIL = 'email', PASSWORD_RESET = 'password-reset'. -/
inductive VerificationType where
  | email
  | passwordReset
deriving DecidableEq

/-- The `type` discriminator of `TokenPayload` in `src/auth/token.service.ts`. -/
inductive TokenType where
  | access
  | refresh
deriving DecidableEq

/-- A document of the `User` collection (`src/models/user.model.ts`).
`password` holds the bcrypt verifier produced by the pre-save hook. -/
structure UserRec where
  id : Nat
  username : String
  email : String
  password : String
  isVerified : Bool
deriving DecidableEq

/-- A document of the `Verification` collection
(`src/models/verification.model.ts`). -/
structure VerificationRec where
  id : Nat
  userId : Nat
  vtype : VerificationType
  token : String
  expires : Nat
deriving DecidableEq

/-- JWT claims minted by `TokenService` (`TokenPayload`). -/
structure JwtPayload where
  sub : Nat
  username : String
  typ : TokenType
deriving DecidableEq

/-- A signed JWT string, modelled structurally: payload, embedded
expiry instant, and the signing key. Two tokens are equal as strings
iff all three components agree. -/
structure SignedToken where
  payload : JwtPayload
  exp : Nat
  secret : String
deriving DecidableEq

/-- A document of the `Token` collection (`src/models/token.model.ts`):
the persisted refresh-token record (SessionToken). -/
structure TokenRec where
  userId : Nat
  refreshToken : SignedToken
  expires : Nat
deriving DecidableEq

/-- The durable state visible to the lifecycle engine: the three Mongo
collections. -/
structure AppState where
  users : List UserRec
  verifications : List VerificationRec
  tokens : List TokenRec
deriving DecidableEq

/-- Process configuration sourced from the environment: signing secrets
and token lifetimes (`JWT_ACCESS_SECRET`, `JWT_REFRESH_SECRET`,
`JWT_ACCESS_EXPIRES_IN`, `JWT_REFRESH_EXPIRES_IN`). -/
structure Config where
  accessSecret : String
  refreshSecret : String
  accessTtlMs : Nat
  refreshTtlMs : Nat
deriving DecidableEq

/-- bcrypt hashing via the pre-save hook, out of scope of the spec
(one-way verify-only primitive); modelled as an injective tag. -/
def hashPassword (plain : String) : String :=
  String.append "bcrypt:" plain

/-- Method `UserSchema.methods.comparePassword`: bcrypt.compare of a candidate
against the stored verifier. -/
def comparePassword (candidate stored : String) : Bool :=
  hashPassword candidate == stored

/-- Mongo `deleteOne` keyed on a possibly non-unique field: removes the
first matching document, leaves the rest. -/
def deleteOneBy (p : α → Bool) : List α → List α
  | [] => []
  | x :: xs => if p x then xs else x :: deleteOneBy p xs

/-- JS `parseInt`: value of the leading decimal digits of a string. -/
def parseLeadingInt (s : String) : Nat :=
  (s.toList.takeWhile Char.isDigit).foldl (fun a c => a * 10 + (c.toNat - 48)) 0

/-- JS `s.endsWith(c)` for a one-character suffix: the last character
is `c`. -/
def strEndsWithChar (s : String) (c : Char) : Bool :=
  s.toList.getLast? == some c

/-- TTL computation shared by signup/resend/forgot-password:
`expiresIn.endsWith('h') ? parseInt*3600000 : parseInt*60000`,
with `envVal.getD dflt` standing for `process.env.X || dflt`. -/
def envDurationHM (envVal : Option String) (dflt : String) : Nat :=
  let s := envVal.getD dflt
  if strEndsWithChar s 'h' then parseLeadingInt s * 60 * 60 * 1000
  else parseLeadingInt s * 60 * 1000

/-- One lowercase hex digit, as produced by `Buffer.toString('hex')`. -/
def hexDigitLower (d : Nat) : Char :=
  if d < 10 then Char.ofNat (48 + d) else Char.ofNat (87 + d)

/-- Encoding `Buffer.toString('hex')` on a byte list: two lowercase hex digits
per byte, in order. -/
def bytesToHexChars : List Nat → List Char
  | [] => []
  | b :: bs => hexDigitLower (b / 16) :: hexDigitLower (b % 16) :: bytesToHexChars bs

/-- Code generator `crypto.randomBytes(n).toString('hex').toUpperCase()`: the random
bytes are the explicit argument `bs`. -/
def generateVerificationCode (bs : List Nat) : String :=
  String.mk ((bytesToHexChars bs).map Char.toUpper)

/-- Signing `jwt.sign(payload, secret, expiresIn)`. -/
def jwtSign (payload : JwtPayload) (secret : String) (now ttlMs : Nat) : SignedToken :=
  { payload := payload, exp := now + ttlMs, secret := secret }

/-- Validation `jwt.verify(token, secret)`: succeeds iff the signature key matches
and the embedded expiry has not passed; on failure the service's
try/catch yields null. -/
def jwtVerify (secret : String) (now : Nat) (t : SignedToken) : Option JwtPayload :=
  if t.secret = secret ∧ now < t.exp then some t.payload else none

namespace TokenService

/-- Method `TokenService.generateAccessToken`. -/
def generateAccessToken (cfg : Config) (now : Nat) (userId : Nat) (username : String) :
    SignedToken :=
  jwtSign { sub := userId, username := username, typ := TokenType.access }
    cfg.accessSecret now cfg.accessTtlMs

/-- Method `TokenService.generateRefreshToken`: mints a refresh JWT and stores
it in the `Token` collection with expiry `now + refresh TTL`. Returns
the token and the updated collection. -/
def generateRefreshToken (cfg : Config) (tokens : List TokenRec) (now : Nat)
    (userId : Nat) (username : String) : SignedToken × List TokenRec :=
  let t := jwtSign { sub := userId, username := username, typ := TokenType.refresh }
    cfg.refreshSecret now cfg.refreshTtlMs
  (t, tokens ++ [{ userId := userId, refreshToken := t, expires := now + cfg.refreshTtlMs }])

/-- Method `TokenService.verifyRefreshToken`: jwt.verify with the refresh
secret, then the `type` check, then the store lookup requiring a
matching unexpired `Token` record. -/
def verifyRefreshToken (cfg : Config) (tokens : List TokenRec) (now : Nat)
    (t : SignedToken) : Option JwtPayload :=
  match jwtVerify cfg.refreshSecret now t with
  | none => none
  | some decoded =>
    if decoded.typ ≠ TokenType.refresh then none
    else
      match tokens.find? (fun r =>
          decide (r.userId = decoded.sub ∧ r.refreshToken = t ∧ now < r.expires)) with
      | none => none
      | some _ => some decoded

/-- Method `TokenService.deleteRefreshToken`: `Token.deleteOne` keyed on the
refresh-token string (not a unique-indexed field, so first match);
returns `deletedCount > 0` and the updated collection. -/
def deleteRefreshToken (tokens : List TokenRec) (t : SignedToken) :
    Bool × List TokenRec :=
  match tokens.find? (fun r => decide (r.refreshToken = t)) with
  | none => (false, tokens)
  | some _ => (true, deleteOneBy (fun r => decide (r.refreshToken = t)) tokens)

end TokenService

/-- Result of `AuthService.signup`. -/
structure SignupResult where
  success : Bool
  userId : Option Nat
  message : String
deriving DecidableEq

/-- The public-safe user projection returned by login. -/
structure UserView where
  id : Nat
  username : String
  email : String
  isVerified : Bool
deriving DecidableEq

/-- Result of `AuthService.login`. -/
structure LoginResult where
  success : Bool
  accessToken : Option SignedToken
  refreshToken : Option SignedToken
  user : Option UserView
  message : String
deriving DecidableEq

/-- Result of `AuthService.refreshToken`. -/
structure TokenRefreshResult where
  success : Bool
  accessToken : Option SignedToken
  message : String
deriving DecidableEq

namespace AuthService

/-- Method `AuthService.signup`: duplicate pre-checks, user creation (bcrypt
via the pre-save hook), verification-code generation
(`crypto.randomBytes(3).toString('hex').toUpperCase()`, given here as
byte list `randBytes`), and persistence of the EMAIL verification
record with expiry `now + (VERIFICATION_CODE_EXPIRES_IN || '15m')`.
The e-mail dispatch result is ignored by the source, so it does not
appear. `newUserId`/`newVerifId` are the fresh Mongo ids. -/
def signup (envVerif : Option String) (s : AppState) (now : Nat)
    (randBytes : List Nat) (newUserId newVerifId : Nat)
    (username email password : String) : SignupResult × AppState :=
  if (s.users.find? (fun u => decide (u.username = username))).isSome then
    ({ success := false, userId := none, message := "Username already exists" }, s)
  else if (s.users.find? (fun u => decide (u.email = email))).isSome then
    ({ success := false, userId := none, message := "Email already exists" }, s)
  else
    let user : UserRec :=
      { id := newUserId, username := username, email := email,
        password := hashPassword password, isVerified := false }
    let tok := generateVerificationCode randBytes
    let verif : VerificationRec :=
      { id := newVerifId, userId := newUserId, vtype := VerificationType.email,
        token := tok, expires := now + envDurationHM envVerif "15m" }
    ({ success := true, userId := some newUserId,
       message := "User registered successfully. Please verify your email." },
     { s with users := s.users ++ [user], verifications := s.verifications ++ [verif] })

/-- Method `AuthService.verifyEmail`: `Verification.findOne` on exact token,
EMAIL type and `expires > now`; then `User.findById`; sets
`isVerified := true` and saves; then `Verification.deleteOne` on the
found record's unique `_id`. Returns the boolean result and the new
state. -/
def verifyEmail (s : AppState) (now : Nat) (token : String) : Bool × AppState :=
  match s.verifications.find? (fun v =>
      decide (v.token = token ∧ v.vtype = VerificationType.email ∧ now < v.expires)) with
  | none => (false, s)
  | some verif =>
    match s.users.find? (fun u => decide (u.id = verif.userId)) with
    | none => (false, s)
    | some user =>
      (true,
       { s with
         users := s.users.map (fun u =>
           if u.id = user.id then { u with isVerified := true } else u),
         verifications := s.verifications.filter (fun v => decide (v.id ≠ verif.id)) })

/-- Method `AuthService.resendVerificationCode`: user lookup by email; failure
if absent or already verified; otherwise `Verification.deleteMany` of
all EMAIL records of the user, creation of a fresh code, dispatch of
the e-mail whose boolean outcome is `emailSent` — a dispatch failure
makes the call return `false` after the store was already mutated. -/
def resendVerificationCode (envVerif : Option String) (s : AppState) (now : Nat)
    (randBytes : List Nat) (newVerifId : Nat) (email : String) (emailSent : Bool) :
    Bool × AppState :=
  match s.users.find? (fun u => decide (u.email = email)) with
  | none => (false, s)
  | some user =>
    if user.isVerified then (false, s)
    else
      let tok := generateVerificationCode randBytes
      let verif : VerificationRec :=
        { id := newVerifId, userId := user.id, vtype := VerificationType.email,
          token := tok, expires := now + envDurationHM envVerif "15m" }
      let s' : AppState :=
        { s with verifications :=
            s.verifications.filter (fun v =>
              decide (¬ (v.userId = user.id ∧ v.vtype = VerificationType.email)))
            ++ [verif] }
      if emailSent then (true, s') else (false, s')

/-- Method `AuthService.login`: single `User.findOne` matching username OR
email; `Invalid credentials` when absent; `Email not verified` when
found but unverified (checked before the password); bcrypt compare;
on success mints the access token and a persisted refresh token. -/
def login (cfg : Config) (s : AppState) (now : Nat)
    (usernameOrEmail password : String) : LoginResult × AppState :=
  match s.users.find? (fun u =>
      decide (u.username = usernameOrEmail ∨ u.email = usernameOrEmail)) with
  | none =>
    ({ success := false, accessToken := none, refreshToken := none,
       user := none, message := "Invalid credentials" }, s)
  | some user =>
    if ¬ user.isVerified then
      ({ success := false, accessToken := none, refreshToken := none,
         user := none, message := "Email not verified" }, s)
    else if ¬ comparePassword password user.password then
      ({ success := false, accessToken := none, refreshToken := none,
         user := none, message := "Invalid credentials" }, s)
    else
      let access := TokenService.generateAccessToken cfg now user.id user.username
      let (refresh, tokens') :=
        TokenService.generateRefreshToken cfg s.tokens now user.id user.username
      ({ success := true, accessToken := some access, refreshToken := some refresh,
         user := some { id := user.id, username := user.username,
                        email := user.email, isVerified := user.isVerified },
         message := "Login successful" },
       { s with tokens := tokens' })

/-- Method `AuthService.refreshToken`: dual verification through
`TokenService.verifyRefreshToken` (signature + store record), then a
fresh access token. The source performs no store write on this path,
so the state is returned unchanged. -/
def refreshToken (cfg : Config) (s : AppState) (now : Nat) (t : SignedToken) :
    TokenRefreshResult × AppState :=
  match TokenService.verifyRefreshToken cfg s.tokens now t with
  | none =>
    ({ success := false, accessToken := none, message := "Invalid refresh token" }, s)
  | some decoded =>
    ({ success := true,
       accessToken := some (TokenService.generateAccessToken cfg now decoded.sub decoded.username),
       message := "Token refreshed successfully" }, s)

/-- Method `AuthService.logout`: delegates to `TokenService.deleteRefreshToken`. -/
def logout (s : AppState) (t : SignedToken) : Bool × AppState :=
  let (ok, tokens') := TokenService.deleteRefreshToken s.tokens t
  (ok, { s with tokens := tokens' })

end AuthService

namespace PasswordService

/-- Method `PasswordService.generateResetToken`: user lookup by email —
returning `true` when absent (anti-enumeration); supersession
(`deleteMany` of PASSWORD_RESET records of the user); creation of a
64-hex-char token (`crypto.randomBytes(32).toString('hex')`, given
as `resetTok`) with expiry `now + (PASSWORD_RESET_EXPIRES_IN || '1h')`;
e-mail dispatch whose outcome the source ignores. -/
def generateResetToken (envReset : Option String) (s : AppState) (now : Nat)
    (resetTok : String) (newVerifId : Nat) (email : String) : Bool × AppState :=
  match s.users.find? (fun u => decide (u.email = email)) with
  | none => (true, s)
  | some user =>
    let verif : VerificationRec :=
      { id := newVerifId, userId := user.id, vtype := VerificationType.passwordReset,
        token := resetTok, expires := now + envDurationHM envReset "1h" }
    (true,
     { s with verifications :=
         s.verifications.filter (fun v =>
           decide (¬ (v.userId = user.id ∧ v.vtype = VerificationType.passwordReset)))
         ++ [verif] })

/-- Method `PasswordService.resetPassword`: `Verification.findOne` on exact
token, PASSWORD_RESET type and `expires > now`; `User.findById`;
replaces the password verifier; `Verification.deleteOne` on the found
record's unique `_id`. The source contains only a comment in place of
refresh-token invalidation (deferring it to the route handler), so the
`tokens` collection is untouched here. -/
def resetPassword (s : AppState) (now : Nat) (token newPassword : String) :
    Bool × AppState :=
  match s.verifications.find? (fun v =>
      decide (v.token = token ∧ v.vtype = VerificationType.passwordReset ∧ now < v.expires)) with
  | none => (false, s)
  | some verif =>
    match s.users.find? (fun u => decide (u.id = verif.userId)) with
    | none => (false, s)
    | some user =>
      (true,
       { s with
         users := s.users.map (fun u =>
           if u.id = user.id then { u with password := hashPassword newPassword } else u),
         verifications := s.verifications.filter (fun v => decide (v.id ≠ verif.id)) })

end PasswordService

/-- An HTTP response as the claims need it: status code and the
caller-visible message string. -/
structure HttpResponse where
  status : Nat
  message : String
deriving DecidableEq

namespace Routes

/-- Route `POST /auth/logout` (`src/routes/auth.routes.ts`): calls
`authService.logout` when a refresh token is supplied — ignoring its
boolean result — clears cookies and always answers 200. -/
def logoutRoute (s : AppState) (refreshTok : Option SignedToken) :
    HttpResponse × AppState :=
  match refreshTok with
  | none => ({ status := 200, message := "Logout successful" }, s)
  | some t =>
    ({ status := 200, message := "Logout successful" }, (AuthService.logout s t).snd)

/-- Route `POST /auth/forgot-password`: 400 when the email field is missing,
otherwise calls `passwordService.generateResetToken` — ignoring its
result — and answers 200 with a fixed message (the catch branch
answers identically). -/
def forgotPasswordRoute (envReset : Option String) (s : AppState) (now : Nat)
    (resetTok : String) (newVerifId : Nat) (email : Option String) :
    HttpResponse × AppState :=
  match email with
  | none => ({ status := 400, message := "Email is required" }, s)
  | some e =>
    ({ status := 200,
       message := "If your email exists in our system, you will receive a password reset link" },
     (PasswordService.generateResetToken envReset s now resetTok newVerifId e).snd)

/-- Route `POST /auth/reset-password`: 400 on missing fields, delegates to
`passwordService.resetPassword`, answers 400 on failure and 200 on
success. It performs no session-token invalidation of its own. -/
def resetPasswordRoute (s : AppState) (now : Nat)
    (token newPassword : Option String) : HttpResponse × AppState :=
  match token, newPassword with
  | some tok, some pw =>
    let r := PasswordService.resetPassword s now tok pw
    if r.fst then ({ status := 200, message := "Password reset successful" }, r.snd)
    else ({ status := 400, message := "Password reset failed" }, r.snd)
  | _, _ => ({ status := 400, message := "Token and new password are required" }, s)

end Routes

/-! Concrete data used by the witnesses. -/

/-- A fixed configuration for concrete evaluations. -/
def cfg0 : Config :=
  { accessSecret := "access_secret", refreshSecret := "refresh_secret",
    accessTtlMs := 15 * 60 * 1000, refreshTtlMs := 7 * 24 * 60 * 60 * 1000 }

/-- An unverified demo user whose password is "correct". -/
def aliceU : UserRec :=
  { id := 1, username := "alice", email := "alice@x.com",
    password := hashPassword "correct", isVerified := false }

/-- A verified demo user whose password is "secret". -/
def bobU : UserRec :=
  { id := 2, username := "bob", email := "bob@x.com",
    password := hashPassword "secret", isVerified := true }

/-- Demo store state holding the two demo users and nothing else. -/
def loginDemoState : AppState :=
  { users := [aliceU, bobU], verifications := [], tokens := [] }

/-! Generic helper lemmas about the list-backed store operations. -/

/-- When nothing matches, `deleteOneBy` is the identity. -/
theorem deleteOneBy_of_forall_not (p : α → Bool) (l : List α)
    (h : ∀ x ∈ l, ¬ p x = true) : deleteOneBy p l = l := by
  induction l with
  | nil => rfl
  | cons x xs ih =>
    simp only [deleteOneBy]
    rw [if_neg (h x (List.mem_cons_self x xs)),
      ih (fun y hy => h y (List.mem_cons_of_mem x hy))]

/-- A successful `find?` splits the list around the first match, and
`deleteOneBy` with the same predicate removes exactly that element. -/
theorem find?_some_split (p : α → Bool) (l : List α) (a : α)
    (h : l.find? p = some a) :
    ∃ l1 l2, l = l1 ++ a :: l2 ∧ (∀ x ∈ l1, ¬ p x = true) ∧
      deleteOneBy p l = l1 ++ l2 := by
  induction l with
  | nil => simp [List.find?] at h
  | cons x xs ih =>
    by_cases hx : p x = true
    · rw [List.find?_cons_of_pos _ hx] at h
      obtain rfl : x = a := by injection h
      exact ⟨[], xs, rfl, by simp, by simp [deleteOneBy, hx]⟩
    · rw [List.find?_cons_of_neg _ (by simpa using hx)] at h
      obtain ⟨l1, l2, hl, hnot, hdel⟩ := ih h
      refine ⟨x :: l1, l2, by rw [hl]; rfl, ?_, ?_⟩
      · intro y hy
        rcases List.mem_cons.mp hy with rfl | hy'
        · exact hx
        · exact hnot y hy'
      · simp only [deleteOneBy]
        rw [if_neg hx, hdel, List.cons_append]

/-- Characterization of a successful store lookup. -/
theorem find?_isSome_iff (p : α → Bool) (l : List α) :
    (l.find? p).isSome = true ↔ ∃ x ∈ l, p x = true := by
  cases hf : l.find? p with
  | none =>
    simp only [Option.isSome_none, Bool.false_eq_true, false_iff]
    rintro ⟨x, hx, hpx⟩
    exact absurd hpx (by simpa using List.find?_eq_none.mp hf x hx)
  | some a =>
    simp only [Option.isSome_some, true_iff]
    exact ⟨a, List.mem_of_find?_eq_some hf, List.find?_some hf⟩

/-! # Claim theorems -/

/-- C8. Login failure taxonomy: when no principal matches the
identifier the result is `Invalid credentials`; when a principal
matches, is unverified and the password is correct, the result is
`Email not verified`; when a principal matches, is verified and the
password check fails, the result is `Invalid credentials`. -/
theorem login_failure_taxonomy (cfg : Config) (s : AppState) (now : Nat)
    (usernameOrEmail password : String) :
    (s.users.find? (fun u =>
        decide (u.username = usernameOrEmail ∨ u.email = usernameOrEmail)) = none →
      (AuthService.login cfg s now usernameOrEmail password).fst =
        { success := false, accessToken := none, refreshToken := none,
          user := none, message := "Invalid credentials" }) ∧
    (∀ u, s.users.find? (fun u =>
        decide (u.username = usernameOrEmail ∨ u.email = usernameOrEmail)) = some u →
      u.isVerified = false →
      comparePassword password u.password = true →
      (AuthService.login cfg s now usernameOrEmail password).fst =
        { success := false, accessToken := none, refreshToken := none,
          user := none, message := "Email not verified" }) ∧
    (∀ u, s.users.find? (fun u =>
        decide (u.username = usernameOrEmail ∨ u.email = usernameOrEmail)) = some u →
      u.isVerified = true →
      comparePassword password u.password = false →
      (AuthService.login cfg s now usernameOrEmail password).fst =
        { success := false, accessToken := none, refreshToken := none,
          user := none, message := "Invalid credentials" }) := by
  refine ⟨?_, ?_, ?_⟩
  · intro h
    simp only [AuthService.login]
    rw [h]
  · intro u h hv hp
    simp only [AuthService.login]
    rw [h]
    simp [hv, hp]
  · intro u h hv hp
    simp only [AuthService.login]
    rw [h]
    simp [hv, hp]

/-- Witness for C8 at concrete inputs: unknown identifier, unverified
`alice` with her correct password, verified `bob` with a wrong
password. -/
theorem login_failure_taxonomy_witness :
    (AuthService.login cfg0 loginDemoState 0 "nobody" "pw").fst =
      { success := false, accessToken := none, refreshToken := none,
        user := none, message := "Invalid credentials" } ∧
    (AuthService.login cfg0 loginDemoState 0 "alice" "correct").fst =
      { success := false, accessToken := none, refreshToken := none,
        user := none, message := "Email not verified" } ∧
    (AuthService.login cfg0 loginDemoState 0 "bob" "wrong").fst =
      { success := false, accessToken := none, refreshToken := none,
        user := none, message := "Invalid credentials" } :=
  ⟨(login_failure_taxonomy cfg0 loginDemoState 0 "nobody" "pw").1 (by decide),
   (login_failure_taxonomy cfg0 loginDemoState 0 "alice" "correct").2.1 aliceU
     (by decide) (by decide) (by decide),
   (login_failure_taxonomy cfg0 loginDemoState 0 "bob" "wrong").2.2 bobU
     (by decide) (by decide) (by decide)⟩

/-- C7. ForgotPassword anti-enumeration: the caller-visible response of
`POST /auth/forgot-password` is identical in a state holding a
principal with the supplied email and in a state holding none. -/
theorem forgotPassword_route_indistinguishable (envReset : Option String)
    (s1 s2 : AppState) (now1 now2 : Nat) (tok1 tok2 : String) (vid1 vid2 : Nat)
    (email : String)
    (h1 : ∃ u ∈ s1.users, u.email = email)
    (h2 : ∀ u ∈ s2.users, u.email ≠ email) :
    (Routes.forgotPasswordRoute envReset s1 now1 tok1 vid1 (some email)).fst =
      (Routes.forgotPasswordRoute envReset s2 now2 tok2 vid2 (some email)).fst := rfl

/-- Witness for C7: `alice@x.com` is registered in `loginDemoState` and
absent from the empty state. -/
theorem forgotPassword_route_indistinguishable_witness :
    (Routes.forgotPasswordRoute none loginDemoState 0 "t1" 10 (some "alice@x.com")).fst =
      (Routes.forgotPasswordRoute none
        { users := [], verifications := [], tokens := [] } 5 "t2" 11
        (some "alice@x.com")).fst :=
  forgotPassword_route_indistinguishable none loginDemoState
    { users := [], verifications := [], tokens := [] } 0 5 "t1" "t2" 10 11
    "alice@x.com" (by decide) (by decide)

/-- C4. Expiry is checked by the validation itself: when every record
carrying code `c` of the relevant kind has `expires ≤ now` — even
though such records may still be physically present in the store —
`verifyEmail` and `resetPassword` both fail and leave the state
unchanged. -/
theorem expired_token_rejected (s : AppState) (now : Nat) (c newPassword : String)
    (hv : ∀ v ∈ s.verifications, v.token = c →
      v.vtype = VerificationType.email → v.expires ≤ now)
    (hr : ∀ v ∈ s.verifications, v.token = c →
      v.vtype = VerificationType.passwordReset → v.expires ≤ now) :
    AuthService.verifyEmail s now c = (false, s) ∧
    PasswordService.resetPassword s now c newPassword = (false, s) := by
  have he : s.verifications.find? (fun v =>
      decide (v.token = c ∧ v.vtype = VerificationType.email ∧ now < v.expires)) = none := by
    rw [List.find?_eq_none]
    intro v hm
    simp only [decide_eq_true_eq]
    rintro ⟨h1, h2, h3⟩
    exact absurd h3 (not_lt.mpr (hv v hm h1 h2))
  have hp : s.verifications.find? (fun v =>
      decide (v.token = c ∧ v.vtype = VerificationType.passwordReset ∧ now < v.expires)) = none := by
    rw [List.find?_eq_none]
    intro v hm
    simp only [decide_eq_true_eq]
    rintro ⟨h1, h2, h3⟩
    exact absurd h3 (not_lt.mpr (hr v hm h1 h2))
  constructor
  · simp only [AuthService.verifyEmail]
    rw [he]
  · simp only [PasswordService.resetPassword]
    rw [hp]

/-- Demo state holding one expired EMAIL record and one expired
PASSWORD_RESET record for user `alice`, both still physically present. -/
def expiredDemoState : AppState :=
  { users := [aliceU],
    verifications :=
      [{ id := 20, userId := 1, vtype := VerificationType.email,
         token := "0A0B0C", expires := 100 },
       { id := 21, userId := 1, vtype := VerificationType.passwordReset,
         token := "deadbeef", expires := 100 }],
    tokens := [] }

/-- Witness for C4: at time 100 (= the records' expiry) both operations
reject the still-present records. -/
theorem expired_token_rejected_witness :
    AuthService.verifyEmail expiredDemoState 100 "0A0B0C" = (false, expiredDemoState) ∧
    PasswordService.resetPassword expiredDemoState 100 "deadbeef" "npw" =
      (false, expiredDemoState) :=
  ⟨(expired_token_rejected expiredDemoState 100 "0A0B0C" "npw"
      (by decide) (by decide)).1,
   (expired_token_rejected expiredDemoState 100 "deadbeef" "npw"
      (by decide) (by decide)).2⟩

/-- C2. Logout is idempotent and treats absence as success: with no
matching SessionToken record, `POST /auth/logout` answers 200 and the
store is unchanged; with a matching record, it answers 200 and exactly
the first matching record is deleted. -/
theorem logout_idempotent (s : AppState) (t : SignedToken) :
    ((∀ r ∈ s.tokens, ¬ r.refreshToken = t) →
      Routes.logoutRoute s (some t) =
        ({ status := 200, message := "Logout successful" }, s)) ∧
    (∀ r, s.tokens.find? (fun x => decide (x.refreshToken = t)) = some r →
      ∃ l1 l2, s.tokens = l1 ++ r :: l2 ∧ (∀ x ∈ l1, ¬ x.refreshToken = t) ∧
        Routes.logoutRoute s (some t) =
          ({ status := 200, message := "Logout successful" },
           { s with tokens := l1 ++ l2 })) := by
  constructor
  · intro h
    have hnone : s.tokens.find? (fun x => decide (x.refreshToken = t)) = none := by
      rw [List.find?_eq_none]
      intro x hx
      simpa using h x hx
    simp only [Routes.logoutRoute, AuthService.logout, TokenService.deleteRefreshToken]
    rw [hnone]
  · intro r hfind
    obtain ⟨l1, l2, hl, hnot, hdel⟩ :=
      find?_some_split (fun x => decide (x.refreshToken = t)) s.tokens r hfind
    refine ⟨l1, l2, hl, fun x hx => by simpa using hnot x hx, ?_⟩
    simp only [Routes.logoutRoute, AuthService.logout, TokenService.deleteRefreshToken]
    rw [hfind, hdel]

/-- A live demo refresh token for user 1. -/
def refreshTok1 : SignedToken :=
  { payload := { sub := 1, username := "alice", typ := TokenType.refresh },
    exp := 1000000, secret := "refresh_secret" }

/-- A live demo refresh token for user 2. -/
def refreshTok2 : SignedToken :=
  { payload := { sub := 2, username := "bob", typ := TokenType.refresh },
    exp := 1000000, secret := "refresh_secret" }

/-- A refresh token that has no record in the demo store. -/
def missingTok : SignedToken :=
  { payload := { sub := 3, username := "carol", typ := TokenType.refresh },
    exp := 1000000, secret := "refresh_secret" }

/-- SessionToken record backing `refreshTok1`. -/
def sess1 : TokenRec := { userId := 1, refreshToken := refreshTok1, expires := 1000000 }

/-- SessionToken record backing `refreshTok2`. -/
def sess2 : TokenRec := { userId := 2, refreshToken := refreshTok2, expires := 1000000 }

/-- Demo store with the two session records. -/
def logoutDemoState : AppState :=
  { users := [], verifications := [], tokens := [sess1, sess2] }

/-- Witness for C2: logging out an absent token answers 200 and keeps
the store; logging out `refreshTok1` answers 200 and deletes exactly
its record. -/
theorem logout_idempotent_witness :
    Routes.logoutRoute logoutDemoState (some missingTok) =
      ({ status := 200, message := "Logout successful" }, logoutDemoState) ∧
    (∃ l1 l2, logoutDemoState.tokens = l1 ++ sess1 :: l2 ∧
      (∀ x ∈ l1, ¬ x.refreshToken = refreshTok1) ∧
      Routes.logoutRoute logoutDemoState (some refreshTok1) =
        ({ status := 200, message := "Logout successful" },
         { logoutDemoState with tokens := l1 ++ l2 })) :=
  ⟨(logout_idempotent logoutDemoState missingTok).1 (by decide),
   (logout_idempotent logoutDemoState refreshTok1).2 sess1 (by decide)⟩

/-- Unfolding equation for `verifyRefreshToken` when the signature
check fails. -/
theorem verifyRefreshToken_eq_none_of_jwt (cfg : Config) (tokens : List TokenRec)
    (now : Nat) (t : SignedToken)
    (h : jwtVerify cfg.refreshSecret now t = none) :
    TokenService.verifyRefreshToken cfg tokens now t = none := by
  unfold TokenService.verifyRefreshToken
  rw [h]

/-- Unfolding equation for `verifyRefreshToken` when the signature
check succeeds. -/
theorem verifyRefreshToken_eq_of_jwt_some (cfg : Config) (tokens : List TokenRec)
    (now : Nat) (t : SignedToken) (d : JwtPayload)
    (h : jwtVerify cfg.refreshSecret now t = some d) :
    TokenService.verifyRefreshToken cfg tokens now t =
      (if d.typ ≠ TokenType.refresh then none
       else
         match tokens.find? (fun r =>
             decide (r.userId = d.sub ∧ r.refreshToken = t ∧ now < r.expires)) with
         | none => none
         | some _ => some d) := by
  unfold TokenService.verifyRefreshToken
  rw [h]

/-- C5. Refresh succeeds iff the string verifies as a well-signed,
unexpired refresh-kind token AND a matching unexpired SessionToken
record exists in the store; and a refresh performs no store write, so
in particular deleting the record invalidates refresh while the
signature alone would still verify, and the refresh token is not
rotated. -/
theorem refresh_dual_check (cfg : Config) (s : AppState) (now : Nat) (t : SignedToken) :
    ((AuthService.refreshToken cfg s now t).fst.success = true ↔
      (t.secret = cfg.refreshSecret ∧ now < t.exp ∧
       t.payload.typ = TokenType.refresh ∧
       ∃ r ∈ s.tokens, r.userId = t.payload.sub ∧ r.refreshToken = t ∧
         now < r.expires)) ∧
    (AuthService.refreshToken cfg s now t).snd = s := by
  constructor
  · by_cases h1 : t.secret = cfg.refreshSecret ∧ now < t.exp
    · have hjwt : jwtVerify cfg.refreshSecret now t = some t.payload := by
        simp only [jwtVerify]
        rw [if_pos h1]
      have hv0 := verifyRefreshToken_eq_of_jwt_some cfg s.tokens now t t.payload hjwt
      by_cases h2 : t.payload.typ = TokenType.refresh
      · rw [if_neg (by simp [h2])] at hv0
        cases hf : s.tokens.find? (fun r =>
            decide (r.userId = t.payload.sub ∧ r.refreshToken = t ∧ now < r.expires)) with
        | none =>
          have hv1 : TokenService.verifyRefreshToken cfg s.tokens now t = none := by
            rw [hv0, hf]
          simp only [AuthService.refreshToken, hv1]
          constructor
          · intro hcontra
            simp at hcontra
          · rintro ⟨_, _, _, r, hr, h3, h4, h5⟩
            have := List.find?_eq_none.mp hf r hr
            simp only [decide_eq_true_eq] at this
            exact absurd ⟨h3, h4, h5⟩ this
        | some r =>
          have hv1 : TokenService.verifyRefreshToken cfg s.tokens now t =
              some t.payload := by
            rw [hv0, hf]
          simp only [AuthService.refreshToken, hv1]
          have hp := List.find?_some hf
          simp only [decide_eq_true_eq] at hp
          exact ⟨fun _ => ⟨h1.1, h1.2, h2, r, List.mem_of_find?_eq_some hf, hp⟩,
                 fun _ => trivial⟩
      · rw [if_pos h2] at hv0
        simp only [AuthService.refreshToken, hv0]
        constructor
        · intro hcontra
          simp at hcontra
        · rintro ⟨_, _, h3, _⟩
          exact absurd h3 h2
    · have hjwt : jwtVerify cfg.refreshSecret now t = none := by
        simp only [jwtVerify]
        rw [if_neg h1]
      have hv1 := verifyRefreshToken_eq_none_of_jwt cfg s.tokens now t hjwt
      simp only [AuthService.refreshToken, hv1]
      constructor
      · intro hcontra
        simp at hcontra
      · rintro ⟨ha, hb, _⟩
        exact absurd ⟨ha, hb⟩ h1
  · simp only [AuthService.refreshToken]
    cases hv : TokenService.verifyRefreshToken cfg s.tokens now t <;> simp [hv]

/-- Hex encoding yields two characters per byte. -/
theorem length_bytesToHexChars (bs : List Nat) :
    (bytesToHexChars bs).length = 2 * bs.length := by
  induction bs with
  | nil => rfl
  | cons b bs ih =>
    simp only [bytesToHexChars, List.length_cons, ih]
    omega

/-- Every uppercased hex digit of a byte below 256 is an uppercase
letter or a digit. -/
theorem hexDigitUpper_alnum :
    ∀ d, d < 16 →
      (((hexDigitLower d).toUpper.isDigit || (hexDigitLower d).toUpper.isUpper) = true) := by
  decide

/-- Every character of the uppercased hex encoding of a byte list is
an uppercase letter or a digit. -/
theorem mem_hexUpper_alnum (bs : List Nat) (hb : ∀ b ∈ bs, b < 256) :
    ∀ c ∈ (bytesToHexChars bs).map Char.toUpper,
      (c.isDigit || c.isUpper) = true := by
  induction bs with
  | nil => intro c hc; simp [bytesToHexChars] at hc
  | cons b bs ih =>
    intro c hc
    have hblt : b < 256 := hb b (List.mem_cons_self b bs)
    simp only [bytesToHexChars, List.map_cons, List.mem_cons] at hc
    rcases hc with rfl | hc
    · exact hexDigitUpper_alnum (b / 16) (Nat.div_lt_of_lt_mul (by omega))
    rcases hc with rfl | hc
    · exact hexDigitUpper_alnum (b % 16) (Nat.mod_lt _ (by omega))
    · exact ih (fun y hy => hb y (List.mem_cons_of_mem b hy)) c hc

/-- C9. A successful signup generates a 6-character code of uppercase
alphanumeric characters (uppercased hex of 3 random bytes) and
persists it as the EMAIL verification token with expiry
`now + 15 minutes` (the default VERIFICATION_CODE_EXPIRES_IN). -/
theorem signup_verification_code (s : AppState) (now : Nat) (bs : List Nat)
    (uid vid : Nat) (username email password : String)
    (hlen : bs.length = 3) (hb : ∀ b ∈ bs, b < 256)
    (hsu : (AuthService.signup none s now bs uid vid username email password).fst.success
      = true) :
    (generateVerificationCode bs).length = 6 ∧
    (∀ c ∈ (generateVerificationCode bs).toList, (c.isDigit || c.isUpper) = true) ∧
    (AuthService.signup none s now bs uid vid username email password).snd.verifications =
      s.verifications ++
        [{ id := vid, userId := uid, vtype := VerificationType.email,
           token := generateVerificationCode bs, expires := now + 15 * 60 * 1000 }] := by
  refine ⟨?_, ?_, ?_⟩
  · show (String.mk ((bytesToHexChars bs).map Char.toUpper)).length = 6
    simp [String.length, List.length_map, length_bytesToHexChars, hlen]
  · intro c hc
    exact mem_hexUpper_alnum bs hb c (by simpa [generateVerificationCode] using hc)
  · simp only [AuthService.signup] at hsu ⊢
    by_cases hu : (s.users.find? (fun u => decide (u.username = username))).isSome = true
    · rw [if_pos hu] at hsu
      simp at hsu
    · rw [if_neg hu] at hsu ⊢
      by_cases he : (s.users.find? (fun u => decide (u.email = email))).isSome = true
      · rw [if_pos he] at hsu
        simp at hsu
      · rw [if_neg he]
        have : envDurationHM none "15m" = 15 * 60 * 1000 := by decide
        rw [this]

/-- Witness for C9: a concrete successful signup from the empty state
with random bytes 0x0f, 0x5a, 0xc3. -/
theorem signup_verification_code_witness :
    (generateVerificationCode [15, 90, 195]).length = 6 ∧
    (∀ c ∈ (generateVerificationCode [15, 90, 195]).toList,
      (c.isDigit || c.isUpper) = true) ∧
    (AuthService.signup none { users := [], verifications := [], tokens := [] }
        0 [15, 90, 195] 1 2 "alice" "alice@x.com" "Secret123").snd.verifications =
      [] ++
        [{ id := 2, userId := 1, vtype := VerificationType.email,
           token := generateVerificationCode [15, 90, 195],
           expires := 0 + 15 * 60 * 1000 }] :=
  signup_verification_code { users := [], verifications := [], tokens := [] }
    0 [15, 90, 195] 1 2 "alice" "alice@x.com" "Secret123"
    (by decide) (by decide) (by decide)

/-- The state used to exhibit the missing session invalidation on
password reset: verified user `bob`, a live PASSWORD_RESET token for
him, and one outstanding SessionToken record of his. -/
def resetDemoState : AppState :=
  { users := [bobU],
    verifications :=
      [{ id := 30, userId := 2, vtype := VerificationType.passwordReset,
         token := "a1b2c3", expires := 1000 }],
    tokens := [sess2] }

/-- C1 (failing-input evaluation). On `resetDemoState`, the
`/reset-password` route succeeds (200), yet bob's SessionToken record
is still present afterwards and his pre-reset refresh token still
refreshes successfully: neither `PasswordService.resetPassword` nor
the route handler deletes the principal's SessionToken records, in
contradiction with the claimed forced global re-authentication. -/
theorem resetPassword_leaves_sessions :
    (Routes.resetPasswordRoute resetDemoState 500 (some "a1b2c3") (some "NewPw123")).fst =
      { status := 200, message := "Password reset successful" } ∧
    (Routes.resetPasswordRoute resetDemoState 500 (some "a1b2c3")
        (some "NewPw123")).snd.tokens = [sess2] ∧
    (AuthService.refreshToken cfg0
        (Routes.resetPasswordRoute resetDemoState 500 (some "a1b2c3")
          (some "NewPw123")).snd
        600 refreshTok2).fst.success = true := by
  decide

/-- A list holding two distinct elements has length at least two. -/
theorem two_le_length_of_mem_of_mem {a b : α} {m : List α} (hab : a ≠ b)
    (ha : a ∈ m) (hb : b ∈ m) : 2 ≤ m.length := by
  induction m with
  | nil => cases ha
  | cons x xs ih =>
    rcases List.mem_cons.mp ha with rfl | ha'
    · rcases List.mem_cons.mp hb with rfl | hb'
      · exact absurd rfl hab
      · have := List.length_pos_of_mem hb'
        simp only [List.length_cons]
        omega
    · rcases List.mem_cons.mp hb with rfl | hb'
      · have := List.length_pos_of_mem ha'
        simp only [List.length_cons]
        omega
      · have := ih ha' hb'
        simp only [List.length_cons]
        omega

/-- C3. VerifyEmail is one-shot: if the code `c` matches at most one
EMAIL record in the store and `verifyEmail` succeeds on it, then a
second call with the same code on the resulting state fails, at any
later (or equal or earlier) time `now'`. -/
theorem verifyEmail_one_shot (s s' : AppState) (now now' : Nat) (c : String)
    (huniq : (s.verifications.filter (fun v =>
        decide (v.token = c ∧ v.vtype = VerificationType.email))).length ≤ 1)
    (hsucc : AuthService.verifyEmail s now c = (true, s')) :
    (AuthService.verifyEmail s' now' c).fst = false := by
  simp only [AuthService.verifyEmail] at hsucc
  split at hsucc
  case h_1 =>
    simp at hsucc
  case h_2 verif hf =>
    split at hsucc
    case h_1 =>
      simp at hsucc
    case h_2 user hu =>
      have hs' : s' =
          { s with
            users := s.users.map (fun u =>
              if u.id = user.id then { u with isVerified := true } else u),
            verifications :=
              s.verifications.filter (fun v => decide (v.id ≠ verif.id)) } :=
        (congrArg Prod.snd hsucc).symm
      have hverif_mem := List.mem_of_find?_eq_some hf
      have hverif_p := List.find?_some hf
      simp only [decide_eq_true_eq] at hverif_p
      have hnone : s'.verifications.find? (fun v =>
          decide (v.token = c ∧ v.vtype = VerificationType.email ∧ now' < v.expires)) = none := by
        rw [List.find?_eq_none]
        intro v hv
        simp only [decide_eq_true_eq]
        rintro ⟨hvc, hvt, _⟩
        rw [hs'] at hv
        have hv' := List.mem_filter.mp hv
        have hvne : v.id ≠ verif.id := by simpa using hv'.2
        have hne : v ≠ verif := fun h => hvne (by rw [h])
        have h2 : 2 ≤ (s.verifications.filter (fun v =>
            decide (v.token = c ∧ v.vtype = VerificationType.email))).length :=
          two_le_length_of_mem_of_mem hne
            (List.mem_filter.mpr ⟨hv'.1, by simp [hvc, hvt]⟩)
            (List.mem_filter.mpr ⟨hverif_mem, by simp [hverif_p.1, hverif_p.2.1]⟩)
        omega
      simp only [AuthService.verifyEmail]
      rw [hnone]

/-- Demo state for the one-shot witness: unverified `alice` and a live
EMAIL code `0F5AC3` for her. -/
def oneShotDemoState : AppState :=
  { users := [aliceU],
    verifications :=
      [{ id := 40, userId := 1, vtype := VerificationType.email,
         token := "0F5AC3", expires := 1000 }],
    tokens := [] }

/-- Witness for C3: consuming `0F5AC3` succeeds once; the second call
on the post-state fails. -/
theorem verifyEmail_one_shot_witness :
    (AuthService.verifyEmail
      (AuthService.verifyEmail oneShotDemoState 500 "0F5AC3").snd 501 "0F5AC3").fst
      = false :=
  verifyEmail_one_shot oneShotDemoState
    (AuthService.verifyEmail oneShotDemoState 500 "0F5AC3").snd 500 501 "0F5AC3"
    (by decide) (by decide)

/-- Filtering for a predicate after filtering for its negation leaves
nothing. -/
theorem filter_pred_filter_neg (q : α → Prop) [DecidablePred q] (l : List α) :
    (l.filter (fun x => decide (¬ q x))).filter (fun x => decide (q x)) = [] := by
  rw [List.filter_eq_nil_iff]
  intro a ha
  have h2 := (List.mem_filter.mp ha).2
  simp only [decide_eq_true_eq] at h2 ⊢
  exact h2

/-- Lookup skips a prefix in which nothing matches. -/
theorem find?_append_of_forall_not (p : α → Bool) (l1 l2 : List α)
    (h : ∀ x ∈ l1, ¬ p x = true) :
    (l1 ++ l2).find? p = l2.find? p := by
  induction l1 with
  | nil => rfl
  | cons x xs ih =>
    rw [List.cons_append,
      List.find?_cons_of_neg _ (by simpa using h x (List.mem_cons_self x xs))]
    exact ih (fun y hy => h y (List.mem_cons_of_mem x hy))

/-- Full behaviour of `resendVerificationCode` on an eligible
(existing, unverified) principal, for either e-mail dispatch outcome:
the result is the dispatch outcome, and the store is always mutated —
prior EMAIL records of the principal deleted, the fresh one appended. -/
theorem resend_eq (env : Option String) (s : AppState) (now : Nat) (bs : List Nat)
    (vid : Nat) (email : String) (es : Bool) (u : UserRec)
    (hu : s.users.find? (fun w => decide (w.email = email)) = some u)
    (hv : u.isVerified = false) :
    AuthService.resendVerificationCode env s now bs vid email es =
      (es,
       { s with verifications :=
           s.verifications.filter (fun v =>
             decide (¬ (v.userId = u.id ∧ v.vtype = VerificationType.email)))
           ++ [{ id := vid, userId := u.id, vtype := VerificationType.email,
                 token := generateVerificationCode bs,
                 expires := now + envDurationHM env "15m" }] }) := by
  simp only [AuthService.resendVerificationCode]
  rw [hu]
  cases es <;> simp [hv]

/-- Projection of `resend_eq`: the boolean result is the dispatch
outcome. -/
theorem resend_fst (env : Option String) (s : AppState) (now : Nat) (bs : List Nat)
    (vid : Nat) (email : String) (es : Bool) (u : UserRec)
    (hu : s.users.find? (fun w => decide (w.email = email)) = some u)
    (hv : u.isVerified = false) :
    (AuthService.resendVerificationCode env s now bs vid email es).fst = es := by
  rw [resend_eq env s now bs vid email es u hu hv]

/-- Projection of `resend_eq`: the users collection is untouched. -/
theorem resend_snd_users (env : Option String) (s : AppState) (now : Nat)
    (bs : List Nat) (vid : Nat) (email : String) (es : Bool) (u : UserRec)
    (hu : s.users.find? (fun w => decide (w.email = email)) = some u)
    (hv : u.isVerified = false) :
    (AuthService.resendVerificationCode env s now bs vid email es).snd.users = s.users := by
  rw [resend_eq env s now bs vid email es u hu hv]

/-- Projection of `resend_eq`: the verification collection afterwards. -/
theorem resend_snd_verifications (env : Option String) (s : AppState) (now : Nat)
    (bs : List Nat) (vid : Nat) (email : String) (es : Bool) (u : UserRec)
    (hu : s.users.find? (fun w => decide (w.email = email)) = some u)
    (hv : u.isVerified = false) :
    (AuthService.resendVerificationCode env s now bs vid email es).snd.verifications =
      s.verifications.filter (fun v =>
        decide (¬ (v.userId = u.id ∧ v.vtype = VerificationType.email)))
      ++ [{ id := vid, userId := u.id, vtype := VerificationType.email,
            token := generateVerificationCode bs,
            expires := now + envDurationHM env "15m" }] := by
  rw [resend_eq env s now bs vid email es u hu hv]

/-- Failure shape of `verifyEmail` when no live matching record exists. -/
theorem verifyEmail_fst_false_of_none (s2 : AppState) (now2 : Nat) (c : String)
    (hnone : s2.verifications.find? (fun v =>
      decide (v.token = c ∧ v.vtype = VerificationType.email ∧ now2 < v.expires)) = none) :
    (AuthService.verifyEmail s2 now2 c).fst = false := by
  simp only [AuthService.verifyEmail]
  rw [hnone]

/-- Success shape of `verifyEmail`: a live matching record whose owner
exists makes it return true. -/
theorem verifyEmail_fst_true_of_found (s2 : AppState) (now2 : Nat) (c : String)
    (verif : VerificationRec)
    (hfnd : s2.verifications.find? (fun v =>
      decide (v.token = c ∧ v.vtype = VerificationType.email ∧ now2 < v.expires)) = some verif)
    (hus : (s2.users.find? (fun w => decide (w.id = verif.userId))).isSome = true) :
    (AuthService.verifyEmail s2 now2 c).fst = true := by
  obtain ⟨user2, hus2⟩ := Option.isSome_iff_exists.mp hus
  simp only [AuthService.verifyEmail]
  split
  case h_1 heq =>
    rw [hfnd] at heq
    exact Option.noConfusion heq
  case h_2 verif2 heq =>
    rw [hfnd] at heq
    injection heq with h
    subst h
    split
    case h_1 heq2 =>
      rw [hus2] at heq2
      exact Option.noConfusion heq2
    case h_2 user3 heq2 => rfl

/-- After a resend on an eligible principal — whatever the dispatch
outcome `es` — the freshly persisted code verifies, provided it
collides with no pre-existing stored token and its expiry has not
passed. -/
theorem resend_new_code_verifies (env : Option String) (s : AppState)
    (now now2 : Nat) (bs : List Nat) (vid : Nat) (email : String) (es : Bool)
    (u : UserRec)
    (hu : s.users.find? (fun w => decide (w.email = email)) = some u)
    (hv : u.isVerified = false)
    (hfresh : ∀ w ∈ s.verifications, ¬ w.token = generateVerificationCode bs)
    (hlt : now2 < now + envDurationHM env "15m") :
    (AuthService.verifyEmail
      (AuthService.resendVerificationCode env s now bs vid email es).snd now2
      (generateVerificationCode bs)).fst = true := by
  apply verifyEmail_fst_true_of_found _ _ _
    { id := vid, userId := u.id, vtype := VerificationType.email,
      token := generateVerificationCode bs, expires := now + envDurationHM env "15m" }
  · rw [resend_snd_verifications env s now bs vid email es u hu hv]
    have hk : ∀ x ∈ s.verifications.filter (fun v =>
        decide (¬ (v.userId = u.id ∧ v.vtype = VerificationType.email))),
        ¬ (fun v => decide (v.token = generateVerificationCode bs ∧
            v.vtype = VerificationType.email ∧ now2 < v.expires)) x = true := by
      intro x hx
      have hin := List.mem_filter.mp hx
      simp only [decide_eq_true_eq]
      rintro ⟨hxc, _, _⟩
      exact hfresh x hin.1 hxc
    rw [find?_append_of_forall_not _ _ _ hk]
    rw [List.find?_cons_of_pos _ (by simp [hlt])]
  · rw [resend_snd_users env s now bs vid email es u hu hv]
    exact (find?_isSome_iff _ _).mpr ⟨u, List.mem_of_find?_eq_some hu, by simp⟩

/-- C6. Supersession on resend: a successful resend returns true,
leaves exactly the one fresh EMAIL record for the principal, rejects
every previously issued code of that principal (when the code named
only records of this principal and differs from the fresh one), and
accepts the newly issued code. -/
theorem resend_supersession (s : AppState) (now now2 : Nat) (bs : List Nat)
    (vid : Nat) (email : String) (u : UserRec)
    (hu : s.users.find? (fun w => decide (w.email = email)) = some u)
    (hv : u.isVerified = false) :
    (AuthService.resendVerificationCode none s now bs vid email true).fst = true ∧
    (AuthService.resendVerificationCode none s now bs vid
        email true).snd.verifications.filter
        (fun v => decide (v.userId = u.id ∧ v.vtype = VerificationType.email)) =
      [{ id := vid, userId := u.id, vtype := VerificationType.email,
         token := generateVerificationCode bs,
         expires := now + envDurationHM none "15m" }] ∧
    (∀ c, (∀ w ∈ s.verifications, w.token = c →
        w.userId = u.id ∧ w.vtype = VerificationType.email) →
      c ≠ generateVerificationCode bs →
      (AuthService.verifyEmail
        (AuthService.resendVerificationCode none s now bs vid email true).snd now2
        c).fst = false) ∧
    ((∀ w ∈ s.verifications, ¬ w.token = generateVerificationCode bs) →
      now2 < now + envDurationHM none "15m" →
      (AuthService.verifyEmail
        (AuthService.resendVerificationCode none s now bs vid email true).snd now2
        (generateVerificationCode bs)).fst = true) := by
  refine ⟨resend_fst none s now bs vid email true u hu hv, ?_, ?_, ?_⟩
  · rw [resend_snd_verifications none s now bs vid email true u hu hv,
      List.filter_append,
      filter_pred_filter_neg
        (fun v => v.userId = u.id ∧ v.vtype = VerificationType.email) s.verifications]
    simp
  · intro c hc hcnew
    apply verifyEmail_fst_false_of_none
    rw [resend_snd_verifications none s now bs vid email true u hu hv,
      List.find?_eq_none]
    intro v hvmem
    simp only [decide_eq_true_eq]
    rintro ⟨hvc, hvt, _⟩
    rcases List.mem_append.mp hvmem with hmem | hmem
    · have hin := List.mem_filter.mp hmem
      have hneg := hin.2
      simp only [decide_eq_true_eq] at hneg
      exact hneg ⟨(hc v hin.1 hvc).1, (hc v hin.1 hvc).2⟩
    · have hveq := List.mem_singleton.mp hmem
      subst hveq
      exact hcnew hvc.symm
  · intro hfresh hlt
    exact resend_new_code_verifies none s now now2 bs vid email true u hu hv hfresh hlt

/-- Demo state for the resend witnesses: unverified `alice` with one
outstanding EMAIL code `OLD111`. -/
def resendDemoState : AppState :=
  { users := [aliceU],
    verifications :=
      [{ id := 41, userId := 1, vtype := VerificationType.email,
         token := "OLD111", expires := 2000 }],
    tokens := [] }

/-- Witness for C6 with random bytes 1,2,3 (fresh code "010203"): the
resend succeeds, exactly the fresh record remains for alice, the old
code `OLD111` no longer verifies, the fresh code does. -/
theorem resend_supersession_witness :
    (AuthService.resendVerificationCode none resendDemoState 0 [1, 2, 3] 50
      "alice@x.com" true).fst = true ∧
    (AuthService.resendVerificationCode none resendDemoState 0 [1, 2, 3] 50
        "alice@x.com" true).snd.verifications.filter
        (fun v => decide (v.userId = aliceU.id ∧ v.vtype = VerificationType.email)) =
      [{ id := 50, userId := aliceU.id, vtype := VerificationType.email,
         token := generateVerificationCode [1, 2, 3],
         expires := 0 + envDurationHM none "15m" }] ∧
    (AuthService.verifyEmail
      (AuthService.resendVerificationCode none resendDemoState 0 [1, 2, 3] 50
        "alice@x.com" true).snd 10 "OLD111").fst = false ∧
    (AuthService.verifyEmail
      (AuthService.resendVerificationCode none resendDemoState 0 [1, 2, 3] 50
        "alice@x.com" true).snd 10 (generateVerificationCode [1, 2, 3])).fst = true :=
  have h := resend_supersession resendDemoState 0 10 [1, 2, 3] 50 "alice@x.com"
    aliceU (by decide) (by decide)
  ⟨h.1, h.2.1, h.2.2.1 "OLD111" (by decide) (by decide),
   h.2.2.2 (by decide) (by decide)⟩

/-- C10. Resend is not atomic with respect to failure: when the e-mail
dispatch fails for an eligible principal, the call reports failure,
yet the store has already been mutated — the prior EMAIL records are
gone, the fresh record is persisted, and the fresh code still
verifies. -/
theorem resend_failure_mutates_store (s : AppState) (now now2 : Nat)
    (bs : List Nat) (vid : Nat) (email : String) (u : UserRec)
    (hu : s.users.find? (fun w => decide (w.email = email)) = some u)
    (hv : u.isVerified = false)
    (hfresh : ∀ w ∈ s.verifications, ¬ w.token = generateVerificationCode bs)
    (hlt : now2 < now + envDurationHM none "15m") :
    (AuthService.resendVerificationCode none s now bs vid email false).fst = false ∧
    (AuthService.resendVerificationCode none s now bs vid email false).snd.verifications =
      s.verifications.filter (fun v =>
        decide (¬ (v.userId = u.id ∧ v.vtype = VerificationType.email)))
      ++ [{ id := vid, userId := u.id, vtype := VerificationType.email,
            token := generateVerificationCode bs,
            expires := now + envDurationHM none "15m" }] ∧
    (AuthService.verifyEmail
      (AuthService.resendVerificationCode none s now bs vid email false).snd now2
      (generateVerificationCode bs)).fst = true :=
  ⟨resend_fst none s now bs vid email false u hu hv,
   resend_snd_verifications none s now bs vid email false u hu hv,
   resend_new_code_verifies none s now now2 bs vid email false u hu hv hfresh hlt⟩

/-- Witness for C10 on `resendDemoState`: dispatch failure still
replaces the token state, and the fresh code "010203" verifies. -/
theorem resend_failure_mutates_store_witness :
    (AuthService.resendVerificationCode none resendDemoState 0 [1, 2, 3] 50
      "alice@x.com" false).fst = false ∧
    (AuthService.resendVerificationCode none resendDemoState 0 [1, 2, 3] 50
        "alice@x.com" false).snd.verifications =
      resendDemoState.verifications.filter (fun v =>
        decide (¬ (v.userId = aliceU.id ∧ v.vtype = VerificationType.email)))
      ++ [{ id := 50, userId := aliceU.id, vtype := VerificationType.email,
            token := generateVerificationCode [1, 2, 3],
            expires := 0 + envDurationHM none "15m" }] ∧
    (AuthService.verifyEmail
      (AuthService.resendVerificationCode none resendDemoState 0 [1, 2, 3] 50
        "alice@x.com" false).snd 10 (generateVerificationCode [1, 2, 3])).fst = true :=
  resend_failure_mutates_store resendDemoState 0 10 [1, 2, 3] 50 "alice@x.com"
    aliceU (by decide) (by decide) (by decide) (by decide)

end AuthCore
